import Mathlib

/-!
Shallow embedding of the connection-multiplexing core of the trojan-rs
server: the `TcpBackend` state machine from `src/server/tcp_backend.rs`
and the reactor helpers from `src/server/tls_server.rs`.

Sockets, the mio poller and the byte stream are modelled explicitly:
each operation takes the outcome of its socket / poller interaction as
an oracle argument (how many bytes the non-blocking socket accepted,
whether the poller call succeeded) and returns, besides the updated
state, the bytes actually written to the wire.
-/

/-- Connection status enum `ConnStatus` (declared in `tls_conn.rs`, outside
the provided sources; its four variants are fixed by the spec and by the
pattern matches in `tcp_backend.rs`). -/
inductive ConnStatus where
  | Established
  | Shutdown
  | Closing
  | Closed
  deriving DecidableEq, Repr

/-- Position of a status along the lifecycle path
`Established → Shutdown → Closing → Closed`. -/
def ConnStatus.rank : ConnStatus → Nat
  | .Established => 0
  | .Shutdown => 1
  | .Closing => 2
  | .Closed => 3

/-- A mio `Ready` interest set restricted to the two bits this code uses. -/
structure Ready where
  readable : Bool
  writable : Bool
  deriving DecidableEq, Repr

/-- Outcome of one non-blocking socket write attempt: the socket accepts
`n` bytes and then either would-block (`ok`) or fails hard (`err`). -/
inductive SockOutcome where
  | ok (n : Nat)
  | err (n : Nat)
  deriving DecidableEq, Repr

def SockOutcome.isOk : SockOutcome → Bool
  | .ok _ => true
  | .err _ => false

/-- State of a `TcpBackend` (fields of the Rust struct, with `conn`
replaced by the explicit poller view `registered` and the teardown flag
`sockShut`, and `recv_buffer` omitted: it is read-side scratch space). -/
structure TcpBackend where
  status : ConnStatus
  readiness : Ready
  registered : Option Ready
  sockShut : Bool
  index : Nat
  token : Nat
  timeout : Nat
  send_buffer : List Nat
  deriving DecidableEq, Repr

/-- `TcpBackend::new`: status `Established`, readable-only interest,
empty send buffer. -/
def TcpBackend.new (index token timeout : Nat) : TcpBackend :=
  { status := .Established
    readiness := { readable := true, writable := false }
    registered := none
    sockShut := false
    index := index
    token := token
    timeout := timeout
    send_buffer := [] }

/-- Modelled from the spec: `tcp_util::tcp_send` (its module is not among
the provided sources). Per the spec it is a partial-write-aware send
helper that reports success or failure and updates the caller's buffer:
the socket accepts a prefix of `data`, the unwritten remainder is moved
into the buffer, and a hard failure reports `false`. Returns
(success, updated buffer, bytes written to the wire). -/
def tcpSend (buffer data : List Nat) (o : SockOutcome) :
    Bool × List Nat × List Nat :=
  match o with
  | .ok n => (true, buffer ++ data.drop n, data.take n)
  | .err n => (false, buffer ++ data.drop n, data.take n)

/-- `TcpBackend::do_send`: run `tcp_send`; on failure set status to
`Closing`; on success, if status is `Shutdown` and the buffer has
drained, move to `Closing`. Also returns the bytes put on the wire. -/
def TcpBackend.do_send (b : TcpBackend) (data : List Nat) (o : SockOutcome) :
    TcpBackend × List Nat :=
  let r := tcpSend b.send_buffer data o
  if r.1 = false then
    ({ b with status := .Closing, send_buffer := r.2.1 }, r.2.2)
  else
    let b1 : TcpBackend := { b with send_buffer := r.2.1 }
    if b1.status = .Shutdown then
      if b1.send_buffer.isEmpty then
        ({ b1 with status := .Closing }, r.2.2)
      else (b1, r.2.2)
    else (b1, r.2.2)

/-- `TcpBackend::setup`: `poll.reregister` with the current readiness;
on success the poller records that interest, on failure status becomes
`Closing`. `pollOk` is the oracle for the poller call. -/
def TcpBackend.setup (b : TcpBackend) (pollOk : Bool) : TcpBackend :=
  if pollOk then { b with registered := some b.readiness }
  else { b with status := .Closing }

/-- `TcpBackend::dispatch`: if nothing is buffered, send the new bytes
directly; otherwise append them to the buffer, split the whole buffer
out (leaving it empty) and send old-plus-new as one unit. -/
def TcpBackend.dispatch (b : TcpBackend) (data : List Nat) (o : SockOutcome) :
    TcpBackend × List Nat :=
  if b.send_buffer.isEmpty then
    b.do_send data o
  else
    TcpBackend.do_send { b with send_buffer := [] } (b.send_buffer ++ data) o

/-- `TcpBackend::reregister`: on `Closing` deregister, on `Closed` do
nothing; otherwise recompute the interest bits (writable iff the buffer
is non-empty, readable iff requested) and call `setup` only if a bit
changed. The Bool result records whether `setup` was invoked. -/
def TcpBackend.reregister (b : TcpBackend) (readable pollOk : Bool) :
    TcpBackend × Bool :=
  match b.status with
  | .Closing => ({ b with registered := none }, false)
  | .Closed => (b, false)
  | _ =>
    let newR : Ready := { readable := readable, writable := !b.send_buffer.isEmpty }
    if newR ≠ b.readiness then
      (TcpBackend.setup { b with readiness := newR } pollOk, true)
    else
      ({ b with readiness := newR }, false)

/-- `TcpBackend::check_close`: only when status is `Closing`, deregister
from the poller, shut the socket down both ways (errors ignored) and
move to `Closed`. The Bool result records whether teardown ran. -/
def TcpBackend.check_close (b : TcpBackend) : TcpBackend × Bool :=
  if b.status = .Closing then
    ({ b with registered := none, sockShut := true, status := .Closed }, true)
  else (b, false)

/-- `TcpBackend::shutdown`: with an empty buffer go straight to
`Closing` and run `check_close`; otherwise force writable-only
interest, set status `Shutdown`, `setup`, then `check_close`. -/
def TcpBackend.shutdown (b : TcpBackend) (pollOk : Bool) : TcpBackend :=
  if b.send_buffer.isEmpty then
    (TcpBackend.check_close { b with status := .Closing }).1
  else
    let b1 : TcpBackend :=
      { b with readiness := { readable := false, writable := true }
               status := .Shutdown }
    ((b1.setup pollOk).check_close).1

/-- `TcpBackend::writable`, with the constant `MAX_BUFFER_SIZE` (defined
in the absent `proto` module) abstracted as the argument `maxBuf`. -/
def TcpBackend.writable (maxBuf : Nat) (b : TcpBackend) : Bool :=
  b.send_buffer.length < maxBuf

/-- `TcpBackend::do_read`: `tcp_util::tcp_read` drains the socket and
forwards to the front connection (external); on failure status becomes
`Closing`. `readOk` is the oracle for that read. -/
def TcpBackend.do_read (b : TcpBackend) (readOk : Bool) : TcpBackend :=
  if readOk then b else { b with status := .Closing }

/-- `TcpBackend::ready`: on a readable event run `do_read`, on a
writable event run `dispatch` with no new bytes. `er`/`ew` are the
event's readiness bits. -/
def TcpBackend.ready (b : TcpBackend) (er ew readOk : Bool) (o : SockOutcome) :
    TcpBackend × List Nat :=
  let b1 := if er then b.do_read readOk else b
  if ew then b1.dispatch [] o else (b1, [])

/-- One operation of the `Backend` interface together with its
environment oracles. -/
inductive Op where
  | ready (er ew readOk : Bool) (o : SockOutcome)
  | dispatch (data : List Nat) (o : SockOutcome)
  | reregister (readable pollOk : Bool)
  | check_close
  | shutdown (pollOk : Bool)
  deriving DecidableEq, Repr

/-- Apply one operation to a backend, discarding wire output. -/
def step (b : TcpBackend) : Op → TcpBackend
  | .ready er ew readOk o => (b.ready er ew readOk o).1
  | .dispatch d o => (b.dispatch d o).1
  | .reregister r p => (b.reregister r p).1
  | .check_close => b.check_close.1
  | .shutdown p => b.shutdown p

/-- Run a sequence of operations. -/
def run (b : TcpBackend) (ops : List Op) : TcpBackend :=
  ops.foldl step b

/-!
Reactor (`TlsServer`) helpers. The constants `CHANNEL_CNT`,
`CHANNEL_PROXY`, `MIN_INDEX`, `MAX_INDEX` live in `src/server/mod.rs`
and `MAX_BUFFER_SIZE` in the `proto` module, none of which are among the
provided sources; they are kept abstract as explicit arguments, with
only the constraints the spec gives them.
-/

/-- Token construction as performed in `TlsServer::accept`:
`Token(index * CHANNEL_CNT + slot)` with `slot = CHANNEL_PROXY`. -/
def encodeToken (cnt slot idx : Nat) : Nat := idx * cnt + slot

/-- `TlsServer::token2index`: integer division by `CHANNEL_CNT`. -/
def token2index (cnt tok : Nat) : Nat := tok / cnt

/-- `TlsServer::next_index` with `MIN_INDEX`/`MAX_INDEX` abstracted:
return the current `next_id`, increment it, and wrap the stored counter
back to `MIN_INDEX` once it exceeds `MAX_INDEX`. Result is
(returned index, new `next_id`). -/
def next_index (minI maxI id : Nat) : Nat × Nat :=
  let ni := id + 1
  (id, if maxI < ni then minI else ni)

/-- The allocator state update alone: the `next_id` after one call. -/
def allocStep (minI maxI id : Nat) : Nat := (next_index minI maxI id).2

/-- Modelled from the spec: the front `Connection` object
(`src/server/connection.rs` is not among the provided sources). For the
timeout sweep only its last-active time, configured timeout and the
`close_now` effect matter; `timeout now` is true when the inactivity
`now - lastActive` exceeds the configured duration. -/
structure Conn where
  lastActive : Nat
  timeoutDur : Nat
  closed : Bool
  deriving DecidableEq, Repr

def Conn.timeout (c : Conn) (now : Nat) : Bool :=
  c.timeoutDur < now - c.lastActive

def Conn.close_now (c : Conn) : Conn := { c with closed := true }

/-- `TlsServer::check_timeout`: scan the table, force-closing every
timed-out connection and collecting its index; after the scan, remove
every collected index. The `HashMap` is modelled as an association list
in an arbitrary iteration order. Returns (new table, removed indices). -/
def check_timeout (now : Nat) (conns : List (Nat × Conn)) :
    List (Nat × Conn) × List Nat :=
  let marked := conns.map (fun p => if p.2.timeout now then (p.1, p.2.close_now) else p)
  let lst := (conns.filter (fun p => p.2.timeout now)).map Prod.fst
  (lst.foldl (fun t i => t.filter (fun p => p.1 ≠ i)) marked, lst)

/-- `TcpBackend::get_timeout`. -/
def TcpBackend.get_timeout (b : TcpBackend) : Nat := b.timeout

/-- Rust `Instant` subtraction `t2 - t1`, a partial operation: it is
only defined when `t1 ≤ t2` (otherwise the Rust code panics). -/
def instantSub (t2 t1 : Nat) : Option Nat :=
  if t1 ≤ t2 then some (t2 - t1) else none

/-- Default `Backend::timeout(t1, t2)` helper from `tls_server.rs`:
`t2 - t1 > self.get_timeout()`, undefined when the subtraction is. -/
def backendTimeout (b : TcpBackend) (t1 t2 : Nat) : Option Bool :=
  (instantSub t2 t1).map (fun d => decide (b.get_timeout < d))

/-- C5: Token round-trip: for every index and every slot strictly below
`CHANNEL_CNT`, decoding the encoded token by integer division returns
the index: `(I * CHANNEL_CNT + S) / CHANNEL_CNT = I`; in particular the
token built at accept time decodes back to its index. -/
theorem c5_token_roundtrip (cnt slot idx : Nat) (hc : 0 < cnt)
    (hs : slot < cnt) :
    token2index cnt (encodeToken cnt slot idx) = idx := by
  unfold token2index encodeToken
  rw [Nat.mul_comm idx cnt, Nat.mul_add_div hc, Nat.div_eq_of_lt hs]
  exact Nat.add_zero idx

/-- Witness for C5 at `CHANNEL_CNT = 2`, `CHANNEL_PROXY = 0`,
index 5. -/
theorem c5_token_roundtrip_witness :
    0 < 2 ∧ 0 < 2 ∧ token2index 2 (encodeToken 2 0 5) = 5 :=
  ⟨by decide, by decide, c5_token_roundtrip 2 0 5 (by decide) (by decide)⟩

/-- The allocator counter advances by one while it stays within the
wrap window above `MIN_INDEX`. -/
theorem allocStep_iterate (minI maxI : Nat) (h : minI ≤ maxI) :
    ∀ k, k ≤ maxI - minI →
      Nat.iterate (allocStep minI maxI) k minI = minI + k := by
  intro k
  induction k with
  | zero => intro _; simp
  | succ k ih =>
    intro hk
    rw [Function.iterate_succ_apply', ih (Nat.le_of_succ_le hk)]
    unfold allocStep next_index
    simp only
    split
    · omega
    · omega

/-- C6: `next_index` returns the current `next_id` and increments it,
wrapping the stored counter to `MIN_INDEX` once it exceeds `MAX_INDEX`;
starting from `MIN_INDEX`, after `MAX_INDEX - MIN_INDEX + 1`
allocations the next allocation returns `MIN_INDEX` again, and both the
returned index and the new counter stay within
`[MIN_INDEX, MAX_INDEX]` whenever the counter starts in that range. -/
theorem c6_next_index_wrap (minI maxI id : Nat) (h : minI ≤ maxI) :
    (next_index minI maxI id).1 = id ∧
    (next_index minI maxI
        (Nat.iterate (allocStep minI maxI) (maxI - minI + 1) minI)).1 = minI ∧
    (minI ≤ id → id ≤ maxI →
      minI ≤ (next_index minI maxI id).1 ∧ (next_index minI maxI id).1 ≤ maxI ∧
      minI ≤ (next_index minI maxI id).2 ∧ (next_index minI maxI id).2 ≤ maxI) := by
  refine ⟨rfl, ?_, ?_⟩
  · rw [Function.iterate_succ_apply',
      allocStep_iterate minI maxI h (maxI - minI) (Nat.le_refl _)]
    have hm : minI + (maxI - minI) = maxI := by omega
    rw [hm]
    unfold allocStep next_index
    simp
  · intro h1 h2
    refine ⟨h1, h2, ?_, ?_⟩ <;>
      · unfold next_index
        simp only
        split <;> omega

/-- Witness for C6 at `MIN_INDEX = 2`, `MAX_INDEX = 5`, counter 4. -/
theorem c6_next_index_wrap_witness :
    2 ≤ 5 ∧ 2 ≤ 4 ∧ 4 ≤ 5 ∧
    ((next_index 2 5 4).1 = 4 ∧
     (next_index 2 5 (Nat.iterate (allocStep 2 5) 4 2)).1 = 2 ∧
     (2 ≤ 4 → 4 ≤ 5 →
       2 ≤ (next_index 2 5 4).1 ∧ (next_index 2 5 4).1 ≤ 5 ∧
       2 ≤ (next_index 2 5 4).2 ∧ (next_index 2 5 4).2 ≤ 5)) :=
  ⟨by decide, by decide, by decide, c6_next_index_wrap 2 5 4 (by decide)⟩

/-- C10: the default `Backend::timeout(t1, t2)` helper is defined
exactly when `t1 ≤ t2` (the `Instant` subtraction `t2 - t1` is partial
and panics otherwise); under that precondition it returns true iff
`t2 - t1` strictly exceeds `get_timeout()`, so inactivity exactly equal
to the configured timeout does not count as timed out. -/
theorem c10_backend_timeout (b : TcpBackend) (t1 t2 : Nat) :
    ((backendTimeout b t1 t2).isSome ↔ t1 ≤ t2) ∧
    (t1 ≤ t2 →
      (backendTimeout b t1 t2 = some true ↔ b.get_timeout < t2 - t1)) ∧
    (t1 ≤ t2 → t2 - t1 = b.get_timeout →
      backendTimeout b t1 t2 = some false) := by
  unfold backendTimeout instantSub
  refine ⟨?_, ?_, ?_⟩
  · split <;> simp_all
  · intro h
    simp [h]
  · intro h he
    simp [h, he]

/-- Witness for C10 at `t1 = 3`, `t2 = 10`, timeout 7: inactivity is
exactly the configured timeout, so it does not count as timed out. -/
theorem c10_backend_timeout_witness :
    (3 ≤ 10 ∧ (10 : Nat) - 3 = (TcpBackend.new 2 4 7).get_timeout) ∧
    backendTimeout (TcpBackend.new 2 4 7) 3 10 = some false :=
  ⟨⟨by decide, by decide⟩,
    (c10_backend_timeout (TcpBackend.new 2 4 7) 3 10).2.2 (by decide) (by decide)⟩

/-- `do_send` called with an empty buffer neither loses nor reorders
bytes: the wire output followed by the resulting buffer is exactly the
data handed in. -/
theorem do_send_wire_append (b : TcpBackend) (d : List Nat) (o : SockOutcome)
    (h : b.send_buffer = []) :
    (b.do_send d o).2 ++ (b.do_send d o).1.send_buffer = d := by
  unfold TcpBackend.do_send tcpSend
  cases o with
  | ok n =>
    simp only [h]
    repeat' split
    all_goals simp
  | err n => simp [h]

/-- One `dispatch` preserves the byte stream: wire output followed by
the new buffer equals the old buffer followed by the new chunk. -/
theorem dispatch_wire_append (b : TcpBackend) (d : List Nat) (o : SockOutcome) :
    (b.dispatch d o).2 ++ (b.dispatch d o).1.send_buffer = b.send_buffer ++ d := by
  unfold TcpBackend.dispatch
  cases hb : b.send_buffer with
  | nil =>
    simp only [hb, List.isEmpty_nil, if_true]
    rw [do_send_wire_append b d o hb]
    simp
  | cons x xs =>
    simp only [hb, List.isEmpty_cons, if_false, Bool.false_eq_true]
    rw [do_send_wire_append _ _ o rfl]

/-- A sequence of `dispatch` calls: each step feeds one chunk with its
socket outcome; returns the final state and the concatenated wire
output. -/
def dispatchRun : TcpBackend → List (List Nat × SockOutcome) →
    TcpBackend × List Nat
  | b, [] => (b, [])
  | b, s :: rest =>
    let r := b.dispatch s.1 s.2
    let rr := dispatchRun r.1 rest
    (rr.1, r.2 ++ rr.2)

/-- Across any dispatch sequence, wire output plus leftover buffer is
the initial buffer plus all chunks in arrival order. -/
theorem dispatchRun_wire_append (steps : List (List Nat × SockOutcome)) :
    ∀ b : TcpBackend,
      (dispatchRun b steps).2 ++ (dispatchRun b steps).1.send_buffer
        = b.send_buffer ++ (steps.map Prod.fst).flatten := by
  induction steps with
  | nil => intro b; simp [dispatchRun]
  | cons s rest ih =>
    intro b
    unfold dispatchRun
    simp only [List.map_cons, List.flatten_cons]
    rw [List.append_assoc, ih, ← List.append_assoc, dispatch_wire_append,
      List.append_assoc]

/-- C2: for every sequence of `dispatch` calls on a fresh `TcpBackend`
(arbitrary socket outcomes each time), the bytes written to the backend
socket followed by the bytes still buffered are exactly the
concatenation of the dispatched chunks in arrival order: buffered bytes
are never overtaken by newly dispatched bytes. -/
theorem c2_dispatch_fifo (i t tmo : Nat)
    (steps : List (List Nat × SockOutcome)) :
    (dispatchRun (TcpBackend.new i t tmo) steps).2
        ++ (dispatchRun (TcpBackend.new i t tmo) steps).1.send_buffer
      = (steps.map Prod.fst).flatten := by
  rw [dispatchRun_wire_append steps (TcpBackend.new i t tmo)]
  simp [TcpBackend.new]

/-- C7: `writable()` is true iff the buffered length is strictly below
`MAX_BUFFER_SIZE` (abstracted as `maxBuf`), and the bound is advisory:
a `dispatch` issued while `writable()` is false is still accepted — if
the socket takes nothing the bytes are appended to `send_buffer`, and
in general nothing is rejected (wire plus buffer account for every
dispatched byte). -/
theorem c7_writable_advisory (maxBuf : Nat) (b : TcpBackend) (d : List Nat)
    (o : SockOutcome) :
    (TcpBackend.writable maxBuf b = true ↔ b.send_buffer.length < maxBuf) ∧
    (TcpBackend.writable maxBuf b = false →
      ((b.dispatch d (.ok 0)).1.send_buffer = b.send_buffer ++ d ∧
       (b.dispatch d o).2 ++ (b.dispatch d o).1.send_buffer
         = b.send_buffer ++ d)) := by
  constructor
  · unfold TcpBackend.writable
    exact decide_eq_true_iff
  · intro _
    refine ⟨?_, dispatch_wire_append b d o⟩
    simp only [TcpBackend.dispatch, TcpBackend.do_send, tcpSend]
    repeat' split
    all_goals simp_all

/-- Witness for C7: bound 1, one byte already buffered, dispatch one
more while the socket takes nothing. -/
theorem c7_writable_advisory_witness :
    TcpBackend.writable 1 { TcpBackend.new 2 4 30 with send_buffer := [9] } = false ∧
    ({ TcpBackend.new 2 4 30 with send_buffer := [9] }.dispatch [5]
        (SockOutcome.ok 0)).1.send_buffer
      = ({ TcpBackend.new 2 4 30 with send_buffer := [9] } : TcpBackend).send_buffer ++ [5] :=
  ⟨by decide,
    ((c7_writable_advisory 1 { TcpBackend.new 2 4 30 with send_buffer := [9] }
        [5] (SockOutcome.ok 0)).2 (by decide)).1⟩

/-- Iterated `check_close`, counting how many calls performed teardown
work. -/
def checkCloseN : Nat → TcpBackend → TcpBackend × Nat
  | 0, b => (b, 0)
  | n + 1, b =>
    let r := b.check_close
    let rr := checkCloseN n r.1
    (rr.1, (if r.2 then 1 else 0) + rr.2)

/-- On a backend whose status is not `Closing`, repeated `check_close`
changes nothing and performs no teardown. -/
theorem checkCloseN_stable (n : Nat) (b : TcpBackend)
    (h : b.status ≠ .Closing) : checkCloseN n b = (b, 0) := by
  induction n with
  | zero => rfl
  | succ n ih =>
    unfold checkCloseN
    simp [TcpBackend.check_close, h, ih]

/-- C8: `check_close` is idempotent: when status is `Closing` it
deregisters, shuts the socket down and sets status `Closed`; for every
other status it changes nothing; across any number of repeated calls
the teardown work runs at most once. -/
theorem c8_check_close_idempotent (b : TcpBackend) (n : Nat) :
    (b.status = .Closing →
      b.check_close =
        ({ b with registered := none, sockShut := true, status := .Closed },
          true)) ∧
    (b.status ≠ .Closing → b.check_close = (b, false)) ∧
    (checkCloseN n b).2 ≤ 1 := by
  refine ⟨?_, ?_, ?_⟩
  · intro h
    simp [TcpBackend.check_close, h]
  · intro h
    simp [TcpBackend.check_close, h]
  · by_cases h : b.status = .Closing
    · cases n with
      | zero => simp [checkCloseN]
      | succ n =>
        unfold checkCloseN
        simp only [TcpBackend.check_close, h, if_true]
        rw [checkCloseN_stable n _ (by simp)]
        simp
    · rw [checkCloseN_stable n b h]
      exact Nat.zero_le 1

/-- Witness for C8: a `Closing` backend, three repeated calls. -/
theorem c8_check_close_idempotent_witness :
    ({ TcpBackend.new 2 4 30 with status := ConnStatus.Closing } : TcpBackend).status
        = ConnStatus.Closing ∧
    (checkCloseN 3
        { TcpBackend.new 2 4 30 with status := ConnStatus.Closing }).2 ≤ 1 :=
  ⟨rfl,
    (c8_check_close_idempotent
        { TcpBackend.new 2 4 30 with status := ConnStatus.Closing } 3).2.2⟩

/-- C4: for a backend whose status is neither `Closing` nor `Closed`,
after `reregister(poll, readable)` the interest set has its writable
bit iff `send_buffer` is non-empty and its readable bit iff requested,
and `setup` (poller re-registration) runs only when that interest
differs from the previously held one; with status `Closing` or `Closed`
no new registration occurs. -/
theorem c4_reregister (b : TcpBackend) (readable pollOk : Bool) :
    (b.status ≠ .Closing → b.status ≠ .Closed →
      ((b.reregister readable pollOk).1.readiness.writable
          = !b.send_buffer.isEmpty ∧
       (b.reregister readable pollOk).1.readiness.readable = readable ∧
       ((b.reregister readable pollOk).2 = true ↔
         ({ readable := readable, writable := !b.send_buffer.isEmpty } : Ready)
           ≠ b.readiness))) ∧
    ((b.status = .Closing ∨ b.status = .Closed) →
      (b.reregister readable pollOk).2 = false) := by
  constructor
  · intro h1 h2
    cases hs : b.status with
    | Closing => exact absurd hs h1
    | Closed => exact absurd hs h2
    | Established =>
      simp only [TcpBackend.reregister, hs]
      split
      · simp only [TcpBackend.setup]
        split <;> simp_all
      · simp_all
    | Shutdown =>
      simp only [TcpBackend.reregister, hs]
      split
      · simp only [TcpBackend.setup]
        split <;> simp_all
      · simp_all
  · intro h
    rcases h with h | h <;> simp [TcpBackend.reregister, h]

/-- Witness for C4: fresh backend (readable-only interest, empty
buffer), caller drops read interest, poller call succeeds. -/
theorem c4_reregister_witness :
    (TcpBackend.new 2 4 30).status ≠ ConnStatus.Closing ∧
    (TcpBackend.new 2 4 30).status ≠ ConnStatus.Closed ∧
    (((TcpBackend.new 2 4 30).reregister false true).1.readiness.writable
        = !(TcpBackend.new 2 4 30).send_buffer.isEmpty ∧
     ((TcpBackend.new 2 4 30).reregister false true).1.readiness.readable = false ∧
     (((TcpBackend.new 2 4 30).reregister false true).2 = true ↔
       ({ readable := false,
          writable := !(TcpBackend.new 2 4 30).send_buffer.isEmpty } : Ready)
         ≠ (TcpBackend.new 2 4 30).readiness)) :=
  ⟨by decide, by decide,
    (c4_reregister (TcpBackend.new 2 4 30) false true).1 (by decide) (by decide)⟩

/-- C3: `shutdown` with an empty `send_buffer` sets `Closing` and runs
`check_close` at once, so status is `Closed` on return; with a
non-empty buffer (and the poller call succeeding) interest becomes
writable-only, status becomes `Shutdown` after re-registration, and a
later flush moves `Shutdown → Closing` exactly when it empties the
buffer — the status is still `Shutdown`, not further, when `shutdown`
returns. -/
theorem c3_shutdown (b : TcpBackend) (pollOk : Bool) :
    (b.send_buffer = [] → (b.shutdown pollOk).status = .Closed) ∧
    (b.send_buffer ≠ [] → pollOk = true →
      ((b.shutdown pollOk).readiness
          = { readable := false, writable := true } ∧
       (b.shutdown pollOk).registered
          = some { readable := false, writable := true } ∧
       (b.shutdown pollOk).status = .Shutdown ∧
       (b.shutdown pollOk).send_buffer = b.send_buffer ∧
       ∀ n : Nat,
         ((((b.shutdown pollOk).dispatch [] (SockOutcome.ok n)).1.send_buffer
              = [] →
            ((b.shutdown pollOk).dispatch [] (SockOutcome.ok n)).1.status
              = .Closing) ∧
          (((b.shutdown pollOk).dispatch [] (SockOutcome.ok n)).1.send_buffer
              ≠ [] →
            ((b.shutdown pollOk).dispatch [] (SockOutcome.ok n)).1.status
              = .Shutdown)))) := by
  constructor
  · intro h
    simp [TcpBackend.shutdown, TcpBackend.check_close, h]
  · intro hne hp
    subst hp
    cases hb : b.send_buffer with
    | nil => exact absurd hb hne
    | cons x xs =>
      have hsd : b.shutdown true =
          { b with readiness := { readable := false, writable := true }
                   status := .Shutdown
                   registered := some { readable := false, writable := true } } := by
        simp [TcpBackend.shutdown, TcpBackend.setup, TcpBackend.check_close, hb]
      rw [hsd]
      refine ⟨rfl, rfl, rfl, hb, ?_⟩
      intro n
      simp only [TcpBackend.dispatch, TcpBackend.do_send, tcpSend, hb]
      repeat' split
      all_goals simp_all

/-- Witness for C3: two buffered bytes, successful re-registration,
then a flush that drains both bytes moves `Shutdown` to `Closing`. -/
theorem c3_shutdown_witness :
    ({ TcpBackend.new 2 4 30 with send_buffer := [7, 8] } : TcpBackend).send_buffer
        ≠ [] ∧
    (({ TcpBackend.new 2 4 30 with send_buffer := [7, 8] } : TcpBackend).shutdown
        true).status = ConnStatus.Shutdown ∧
    ((({ TcpBackend.new 2 4 30 with send_buffer := [7, 8] } : TcpBackend).shutdown
          true).dispatch [] (SockOutcome.ok 2)).1.status = ConnStatus.Closing := by
  have h :=
    (c3_shutdown { TcpBackend.new 2 4 30 with send_buffer := [7, 8] } true).2
      (by decide) rfl
  exact ⟨by decide, h.2.2.1, (h.2.2.2.2 2).1 (by decide)⟩

/-- `do_send` never moves the status backward, provided it is not
invoked after `Closed` with a failing socket. -/
theorem do_send_rank (b : TcpBackend) (d : List Nat) (o : SockOutcome)
    (h : b.status = .Closed → o.isOk = true) :
    b.status.rank ≤ (b.do_send d o).1.status.rank := by
  cases o with
  | ok n =>
    simp only [TcpBackend.do_send, tcpSend]
    repeat' split
    all_goals
      cases hs : b.status <;> simp_all [ConnStatus.rank]
  | err n =>
    simp only [TcpBackend.do_send, tcpSend]
    cases hs : b.status <;> simp_all [ConnStatus.rank, SockOutcome.isOk]

/-- `dispatch` never moves the status backward, provided it is not
invoked after `Closed` with a failing socket. -/
theorem dispatch_rank (b : TcpBackend) (d : List Nat) (o : SockOutcome)
    (h : b.status = .Closed → o.isOk = true) :
    b.status.rank ≤ (b.dispatch d o).1.status.rank := by
  unfold TcpBackend.dispatch
  split
  · exact do_send_rank b d o h
  · exact do_send_rank { b with send_buffer := [] } _ o h

/-- `do_read` can only keep the status or set `Closing`. -/
theorem do_read_status (b : TcpBackend) (readOk : Bool) :
    (b.do_read readOk).status = b.status ∨
    (b.do_read readOk).status = .Closing := by
  unfold TcpBackend.do_read
  split <;> simp

/-- `ready` never moves the status backward, provided it is not invoked
after `Closed` with a failing read or a failing socket write. -/
theorem ready_rank (b : TcpBackend) (er ew readOk : Bool) (o : SockOutcome)
    (h : b.status = .Closed →
      ((er = true → readOk = true) ∧ (ew = true → o.isOk = true))) :
    b.status.rank ≤ (b.ready er ew readOk o).1.status.rank := by
  simp only [TcpBackend.ready]
  set b1 := if er then b.do_read readOk else b with hb1
  have hA : b.status.rank ≤ b1.status.rank := by
    rw [hb1]
    split
    · rename_i her
      unfold TcpBackend.do_read
      split
      · exact Nat.le_refl _
      · rename_i hro
        cases hs : b.status with
        | Closed => exact absurd ((h hs).1 her) hro
        | Established => simp [ConnStatus.rank]
        | Shutdown => simp [ConnStatus.rank]
        | Closing => simp [ConnStatus.rank]
    · exact Nat.le_refl _
  have hB : b1.status = .Closed → b.status = .Closed := by
    rw [hb1]
    split
    · unfold TcpBackend.do_read
      split
      · exact id
      · intro hc
        simp at hc
    · exact id
  split
  · rename_i hew
    exact Nat.le_trans hA (dispatch_rank b1 [] o (fun hc => (h (hB hc)).2 hew))
  · exact hA

/-- `reregister` never moves the status backward. -/
theorem reregister_rank (b : TcpBackend) (readable pollOk : Bool) :
    b.status.rank ≤ (b.reregister readable pollOk).1.status.rank := by
  cases hs : b.status with
  | Closing => simp [TcpBackend.reregister, hs]
  | Closed => simp [TcpBackend.reregister, hs]
  | Established =>
    simp only [TcpBackend.reregister, hs]
    split
    · simp only [TcpBackend.setup]
      split <;> simp [ConnStatus.rank, hs]
    · simp [ConnStatus.rank, hs]
  | Shutdown =>
    simp only [TcpBackend.reregister, hs]
    split
    · simp only [TcpBackend.setup]
      split <;> simp [ConnStatus.rank, hs]
    · simp [ConnStatus.rank, hs]

/-- `check_close` never moves the status backward. -/
theorem check_close_rank (b : TcpBackend) :
    b.status.rank ≤ b.check_close.1.status.rank := by
  unfold TcpBackend.check_close
  split <;> simp_all [ConnStatus.rank]

/-- `shutdown` never moves the status backward, provided it is not
invoked while `Closing` or `Closed` with bytes still buffered. -/
theorem shutdown_rank (b : TcpBackend) (pollOk : Bool)
    (h : b.status = .Closing ∨ b.status = .Closed → b.send_buffer = []) :
    b.status.rank ≤ (b.shutdown pollOk).status.rank := by
  unfold TcpBackend.shutdown
  split
  · simp only [TcpBackend.check_close]
    cases hs : b.status <;> simp_all [ConnStatus.rank]
  · have hb : ¬b.send_buffer = [] := by
      intro he
      simp_all
    have hs : b.status ≠ .Closing ∧ b.status ≠ .Closed := by
      constructor <;> intro he <;> exact hb (h (by simp [he]))
    simp only [TcpBackend.setup, TcpBackend.check_close]
    split <;> cases hc : b.status <;> simp_all [ConnStatus.rank]

/-- Side condition under which the status machine is monotone: no
`shutdown` with a non-empty buffer from `Closing`/`Closed`, and no
failing read or write delivered after `Closed`. -/
def monotoneOk (b : TcpBackend) : Op → Prop
  | .ready er ew readOk o =>
    b.status = .Closed → ((er = true → readOk = true) ∧ (ew = true → o.isOk = true))
  | .dispatch _ o => b.status = .Closed → o.isOk = true
  | .reregister _ _ => True
  | .check_close => True
  | .shutdown _ => b.status = .Closing ∨ b.status = .Closed → b.send_buffer = []

/-- C1 (amended): status only moves forward along
`Established → {Shutdown →} Closing → Closed`, except that `shutdown`
invoked with a non-empty `send_buffer` while status is `Closing` or
`Closed` moves it back to `Shutdown`, and a failing socket operation
delivered through `dispatch`/`ready` while status is `Closed` moves it
back to `Closing`; under the side condition excluding exactly those
invocations, no operation ever decreases the status rank. -/
theorem c1_status_monotone (b : TcpBackend) (op : Op)
    (h : monotoneOk b op) :
    b.status.rank ≤ (step b op).status.rank := by
  cases op with
  | ready er ew readOk o => exact ready_rank b er ew readOk o h
  | dispatch d o => exact dispatch_rank b d o h
  | reregister r p => exact reregister_rank b r p
  | check_close => exact check_close_rank b
  | shutdown p => exact shutdown_rank b p h

/-- Witness for C1 at a fresh backend and a `dispatch` of one byte. -/
theorem c1_status_monotone_witness :
    monotoneOk (TcpBackend.new 2 4 30) (Op.dispatch [1] (SockOutcome.ok 0)) ∧
    (TcpBackend.new 2 4 30).status.rank
      ≤ (step (TcpBackend.new 2 4 30) (Op.dispatch [1] (SockOutcome.ok 0))).status.rank :=
  ⟨fun hc => by simp [TcpBackend.new] at hc,
    c1_status_monotone (TcpBackend.new 2 4 30) (Op.dispatch [1] (SockOutcome.ok 0))
      (fun hc => by simp [TcpBackend.new] at hc)⟩

/-- Operation sequence reaching `Closing` with a non-empty buffer: a
partial write buffers one byte, then a failed poller re-registration
moves the backend to `Closing`. -/
def c1CexOps : List Op :=
  [Op.dispatch [1] (SockOutcome.ok 0), Op.reregister true false]

/-- C1 fails as stated: from a fresh backend, a partial write followed
by a failed re-registration yields status `Closing` with one byte still
buffered, and `shutdown` then moves the status backward to `Shutdown`. -/
theorem c1_counterexample :
    (run (TcpBackend.new 2 4 30) c1CexOps).status = ConnStatus.Closing ∧
    (step (run (TcpBackend.new 2 4 30) c1CexOps) (Op.shutdown true)).status
        = ConnStatus.Shutdown ∧
    ConnStatus.rank ConnStatus.Shutdown < ConnStatus.rank ConnStatus.Closing := by
  decide

/-- Removing a list of keys one by one from an association list equals
filtering out all of them at once. -/
theorem foldl_removeKeys_eq_filter (lst : List Nat) :
    ∀ t : List (Nat × Conn),
      lst.foldl (fun t i => t.filter (fun p => p.1 ≠ i)) t
        = t.filter (fun p => decide (p.1 ∉ lst)) := by
  induction lst with
  | nil =>
    intro t
    simp
  | cons i l ih =>
    intro t
    rw [List.foldl_cons, ih, List.filter_filter]
    apply List.filter_congr
    intro p _
    by_cases hp : p.1 = i
    · simp [hp]
    · by_cases hl : p.1 ∈ l <;> simp [hp, hl]

/-- C9: one `check_timeout` sweep removes from the table exactly the
connections whose `timeout(check_active_time)` is true (after
force-closing them), and leaves every other connection in place
unchanged, for every iteration order of the table (modelled as an
arbitrary association list with distinct keys); removals happen only
after the scan, from the collected index list. -/
theorem c9_check_timeout (now : Nat) (conns : List (Nat × Conn))
    (h : (conns.map Prod.fst).Nodup) :
    (check_timeout now conns).1 = conns.filter (fun p => !p.2.timeout now) ∧
    (check_timeout now conns).2
        = (conns.filter (fun p => p.2.timeout now)).map Prod.fst := by
  refine ⟨?_, rfl⟩
  unfold check_timeout
  simp only
  rw [foldl_removeKeys_eq_filter, List.filter_map]
  have hfst : ∀ p : Nat × Conn,
      ((fun p : Nat × Conn =>
          if p.2.timeout now then (p.1, p.2.close_now) else p) p).1 = p.1 := by
    intro p
    by_cases ht : p.2.timeout now <;> simp [ht]
  have hcomp :
      conns.filter
          ((fun p : Nat × Conn => decide
              (p.1 ∉ (conns.filter (fun p => p.2.timeout now)).map Prod.fst)) ∘
            (fun p : Nat × Conn =>
              if p.2.timeout now then (p.1, p.2.close_now) else p))
        = conns.filter (fun p => !p.2.timeout now) := by
    apply List.filter_congr
    intro p hp
    simp only [Function.comp_apply, hfst p]
    by_cases ht : p.2.timeout now
    · have hm : p.1 ∈ (conns.filter (fun p => p.2.timeout now)).map Prod.fst :=
        List.mem_map.2 ⟨p, List.mem_filter.2 ⟨hp, by simp [ht]⟩, rfl⟩
      simp [ht, hm]
    · have hm : p.1 ∉ (conns.filter (fun p => p.2.timeout now)).map Prod.fst := by
        intro hmem
        rcases List.mem_map.1 hmem with ⟨q, hq, hq1⟩
        rcases List.mem_filter.1 hq with ⟨hqc, hqt⟩
        have : q = p := List.inj_on_of_nodup_map h hqc hp hq1
        rw [this] at hqt
        simp [ht] at hqt
      simp [ht, hm]
  rw [hcomp]
  have hid : (conns.filter (fun p => !p.2.timeout now)).map
        (fun p : Nat × Conn =>
          if p.2.timeout now then (p.1, p.2.close_now) else p)
      = (conns.filter (fun p => !p.2.timeout now)).map id := by
    apply List.map_congr_left
    intro p hp
    rcases List.mem_filter.1 hp with ⟨_, hpt⟩
    simp only [id]
    rw [if_neg]
    simp_all
  rw [hid, List.map_id]

/-- Witness for C9: connection 2 timed out, connection 3 still active. -/
theorem c9_check_timeout_witness :
    (([((2 : Nat), (⟨0, 5, false⟩ : Conn)), (3, ⟨8, 5, false⟩)].map
        Prod.fst).Nodup) ∧
    (check_timeout 10 [(2, ⟨0, 5, false⟩), (3, ⟨8, 5, false⟩)]).1
        = [(3, ⟨8, 5, false⟩)] ∧
    (check_timeout 10 [(2, ⟨0, 5, false⟩), (3, ⟨8, 5, false⟩)]).2 = [2] := by
  have h :=
    c9_check_timeout 10 [(2, ⟨0, 5, false⟩), (3, ⟨8, 5, false⟩)] (by decide)
  exact ⟨by decide, h.1.trans (by decide), h.2.trans (by decide)⟩
